import Mathlib

/-!
Verification of the local-whisper repository: three near-duplicate HTTP
transcription services (backend/whisper, backend/faster-whisper,
backend/groq-api).  This file shallowly embeds the repository's own logic:
the filename format validator, the ffmpeg-based audio normalizers, the
request orchestration with its temporary-file lifecycle, the timing-metrics
arithmetic, the response shaping, and the FastAPI endpoint error mapping.
Python strings are modelled as Lean `String` (with the ASCII case mapping of
`Char.toLower` standing in for `str.lower`), the filesystem as an explicit
record of existing files and directories threaded through each operation,
exceptions as an `Except` value, and wall-clock stage durations as
non-negative rationals.
-/

/-! ## Python string helpers (os.path.splitext, os.path.basename, str.split, str.lower) -/

/-- Suffix of the list strictly after the last occurrence of `c`, or `none`
when `c` does not occur.  This is the recursion underlying `str.rfind`-based
splitting in `posixpath`. -/
def afterLast (c : Char) : List Char → Option (List Char)
  | [] => none
  | a :: as =>
    match afterLast c as with
    | some r => some r
    | none => if a = c then some as else none

/-- Characters of `os.path.basename`: everything after the last `'/'`
(the whole string when there is no separator). -/
def pyBasenameChars (cs : List Char) : List Char :=
  (afterLast '/' cs).getD cs

/-- Characters of the extension component of `os.path.splitext` (including
the leading dot, empty when there is no extension).  `posixpath._splitext`
takes the suffix of the basename from its last dot, except that a basename
consisting only of dots up to that last dot has no extension; this is
equivalent to stripping the leading dots of the basename and splitting what
remains at its last dot. -/
def pySplitextExtChars (cs : List Char) : List Char :=
  match afterLast '.' ((pyBasenameChars cs).dropWhile (fun x => decide (x = '.'))) with
  | some suffix => '.' :: suffix
  | none => []

/-- Extension component of `os.path.splitext filename`, as a string. -/
def pySplitextExt (s : String) : String :=
  String.mk (pySplitextExtChars s.data)

/-- Model of `os.path.basename(filename).split('.')[0]`: the basename up to
(excluding) its first dot. -/
def pyStem (s : String) : String :=
  String.mk ((pyBasenameChars s.data).takeWhile (fun x => decide (x ≠ '.')))

/-- Model of `str.lower` (ASCII case mapping). -/
def pyLower (s : String) : String :=
  String.mk (s.data.map Char.toLower)

/-! ## Format validator
Source: `backend/whisper/audio_utils.py` lines 121-133 and the identical
`backend/groq-api/audio_utils.py` lines 66-78. -/

/-- The accepted extension list of `is_valid_audio_format`
(`valid_extensions` in both audio_utils.py files). -/
def valid_extensions : List String :=
  [".mp3", ".wav", ".m4a", ".flac", ".ogg", ".aac", ".webm"]

/-- Model of `is_valid_audio_format(filename)`:
`_, ext = os.path.splitext(filename.lower()); return ext in valid_extensions`. -/
def is_valid_audio_format (filename : String) : Bool :=
  decide (pySplitextExt (pyLower filename) ∈ valid_extensions)

/-- Modelled from the spec wording of claim C2: the extension of the
filename (as `os.path.splitext` extracts it, without the dot), or `none`
when the filename has no extension. -/
def specExtension (filename : String) : Option String :=
  match pySplitextExtChars filename.data with
  | [] => none
  | _ :: rest => some (String.mk rest)

/-- Modelled from the spec wording of claim C2: true exactly when the
filename's extension, compared case-insensitively, is one of
mp3, wav, m4a, flac, ogg, aac, webm; false when the extension is missing
or unrecognized. -/
def specValidFormat (filename : String) : Bool :=
  match specExtension filename with
  | none => false
  | some e =>
    decide (pyLower e ∈ (["mp3", "wav", "m4a", "flac", "ogg", "aac", "webm"] : List String))

/-! ### Case-mapping commutes with extension extraction -/

theorem char_toNat_ofNat_valid (n : Nat) (h : n.isValidChar) :
    (Char.ofNat n).toNat = n := by
  unfold Char.ofNat
  rw [dif_pos h]
  rfl

theorem toLower_eq_iff_of_nonletter (c t : Char)
    (h1 : ¬(65 ≤ t.toNat ∧ t.toNat ≤ 90))
    (h2 : ¬(97 ≤ t.toNat ∧ t.toNat ≤ 122)) :
    Char.toLower c = t ↔ c = t := by
  show (if c.toNat ≥ 65 ∧ c.toNat ≤ 90 then Char.ofNat (c.toNat + 32) else c) = t ↔ c = t
  by_cases h : c.toNat ≥ 65 ∧ c.toNat ≤ 90
  · rw [if_pos h]
    constructor
    · intro he
      exfalso
      have hv : (c.toNat + 32).isValidChar := Or.inl (by omega)
      have h32 := congrArg Char.toNat he
      rw [char_toNat_ofNat_valid _ hv] at h32
      exact h2 ⟨by omega, by omega⟩
    · intro he
      subst he
      exact absurd ⟨h.1, h.2⟩ h1
  · rw [if_neg h]

theorem toLower_dot_iff (c : Char) : Char.toLower c = '.' ↔ c = '.' :=
  toLower_eq_iff_of_nonletter c '.' (by decide) (by decide)

theorem toLower_slash_iff (c : Char) : Char.toLower c = '/' ↔ c = '/' :=
  toLower_eq_iff_of_nonletter c '/' (by decide) (by decide)

theorem afterLast_map (f : Char → Char) (c : Char)
    (hf : ∀ x, f x = c ↔ x = c) (cs : List Char) :
    afterLast c (cs.map f) = (afterLast c cs).map (List.map f) := by
  induction cs with
  | nil => rfl
  | cons a as ih =>
    show (match afterLast c (as.map f) with
      | some r => some r
      | none => if f a = c then some (as.map f) else none) =
      (match afterLast c as with
      | some r => some r
      | none => if a = c then some as else none).map (List.map f)
    rw [ih]
    cases afterLast c as with
    | some r => rfl
    | none =>
      by_cases ha : a = c
      · rw [if_pos ((hf a).mpr ha), if_pos ha]
        rfl
      · rw [if_neg (fun hh => ha ((hf a).mp hh)), if_neg ha]
        rfl

theorem dropWhile_dot_map (f : Char → Char) (hf : ∀ x, f x = '.' ↔ x = '.')
    (cs : List Char) :
    (cs.map f).dropWhile (fun x => decide (x = '.')) =
      (cs.dropWhile (fun x => decide (x = '.'))).map f := by
  induction cs with
  | nil => rfl
  | cons a as ih =>
    by_cases ha : a = '.'
    · subst ha
      have hfa : f '.' = '.' := (hf '.').mpr rfl
      simp [List.dropWhile_cons, hfa, ih]
    · have hfa : ¬(f a = '.') := fun hh => ha ((hf a).mp hh)
      simp [List.dropWhile_cons, ha, hfa, ih]

theorem pyBasenameChars_map_toLower (cs : List Char) :
    pyBasenameChars (cs.map Char.toLower) = (pyBasenameChars cs).map Char.toLower := by
  unfold pyBasenameChars
  rw [afterLast_map Char.toLower '/' toLower_slash_iff]
  cases afterLast '/' cs <;> rfl

theorem pySplitextExtChars_map_toLower (cs : List Char) :
    pySplitextExtChars (cs.map Char.toLower) =
      (pySplitextExtChars cs).map Char.toLower := by
  unfold pySplitextExtChars
  rw [pyBasenameChars_map_toLower,
    dropWhile_dot_map Char.toLower toLower_dot_iff,
    afterLast_map Char.toLower '.' toLower_dot_iff]
  cases afterLast '.' ((pyBasenameChars cs).dropWhile (fun x => decide (x = '.'))) with
  | none => rfl
  | some suffix => rfl

theorem string_mk_cons_eq_iff (l t : List Char) :
    String.mk ('.' :: l) = String.mk ('.' :: t) ↔ String.mk l = String.mk t := by
  constructor
  · intro hc
    have hd : ('.' :: l) = ('.' :: t) := congrArg String.data hc
    injection hd with _ h2
    exact congrArg String.mk h2
  · intro hc
    have hd : l = t := congrArg String.data hc
    rw [hd]

theorem dotted_mem_iff (l : List Char) :
    String.mk ('.' :: l) ∈ valid_extensions ↔
      String.mk l ∈ (["mp3", "wav", "m4a", "flac", "ogg", "aac", "webm"] : List String) := by
  simp only [valid_extensions, List.mem_cons, List.not_mem_nil, or_false]
  exact or_congr (string_mk_cons_eq_iff l "mp3".data)
    (or_congr (string_mk_cons_eq_iff l "wav".data)
    (or_congr (string_mk_cons_eq_iff l "m4a".data)
    (or_congr (string_mk_cons_eq_iff l "flac".data)
    (or_congr (string_mk_cons_eq_iff l "ogg".data)
    (or_congr (string_mk_cons_eq_iff l "aac".data)
      (string_mk_cons_eq_iff l "webm".data))))))

/-- C2: for every filename string, `is_valid_audio_format` returns true if
and only if the filename's extension, compared case-insensitively, is one of
mp3, wav, m4a, flac, ogg, aac, webm; for a filename with a missing or
unrecognized extension it returns false (and, being a total function, it
never raises). -/
theorem is_valid_audio_format_correct (filename : String) :
    is_valid_audio_format filename = specValidFormat filename := by
  unfold is_valid_audio_format specValidFormat specExtension pySplitextExt pyLower
  rw [show (String.mk (filename.data.map Char.toLower)).data =
        filename.data.map Char.toLower from rfl,
    pySplitextExtChars_map_toLower]
  cases h : pySplitextExtChars filename.data with
  | nil => rfl
  | cons a rest =>
    have ha : a = '.' := by
      unfold pySplitextExtChars at h
      cases hA : afterLast '.' ((pyBasenameChars filename.data).dropWhile
          (fun x => decide (x = '.'))) with
      | none => rw [hA] at h; cases h
      | some s => rw [hA] at h; injection h with h1 _; exact h1.symm
    subst ha
    exact decide_eq_decide.mpr (dotted_mem_iff (rest.map Char.toLower))

/-! ## Filesystem model
Paths are a directory token (the name handed out by `tempfile.mkdtemp`) plus
a file name inside it; the filesystem is the finite record of existing files
and directories.  `os.rmdir` on a non-empty directory raises, and every call
site wraps it in a try/except that swallows the error, so removal is
modelled as conditional on emptiness at the call sites that guard it. -/

/-- A path inside a temporary directory: the directory token and the file
name. -/
structure FPath where
  dir : String
  base : String
deriving DecidableEq, Repr

/-- The filesystem state: the existing files and the existing (temporary)
directories. -/
structure FS where
  files : List FPath
  dirs : List String
deriving DecidableEq, Repr

/-- The empty filesystem (no temporary artifacts). -/
def FS.empty : FS := ⟨[], []⟩

/-- Model of `os.path.exists` on a file path. -/
def FS.hasFile (fs : FS) (p : FPath) : Bool := decide (p ∈ fs.files)

/-- Model of `os.path.exists` on a directory. -/
def FS.hasDir (fs : FS) (d : String) : Bool := decide (d ∈ fs.dirs)

/-- Model of `tempfile.mkdtemp`: a fresh directory appears. -/
def FS.mkdtemp (fs : FS) (d : String) : FS := ⟨fs.files, d :: fs.dirs⟩

/-- Model of `open(path, "wb").write(...)`: the file exists afterwards
(overwriting any previous file at the same path). -/
def FS.writeFile (fs : FS) (p : FPath) : FS :=
  ⟨p :: fs.files.filter (fun q => q ≠ p), fs.dirs⟩

/-- Model of `os.unlink`. -/
def FS.unlink (fs : FS) (p : FPath) : FS :=
  ⟨fs.files.filter (fun q => q ≠ p), fs.dirs⟩

/-- Model of `os.listdir(d)` being non-empty (respectively
`list(Path(d).iterdir())` being non-empty). -/
def FS.dirNonempty (fs : FS) (d : String) : Bool :=
  fs.files.any (fun p => p.dir = d)

/-- Model of `os.rmdir`. -/
def FS.rmdir (fs : FS) (d : String) : FS :=
  ⟨fs.files, fs.dirs.filter (fun e => e ≠ d)⟩

/-- Python exceptions that the pipelines raise or catch. -/
inductive PyExc where
  | valueError (msg : String)
  | runtimeError (msg : String)
  | typeError (msg : String)
deriving DecidableEq, Repr

/-- Message of an exception, as `str(e)` renders it at the HTTP boundary. -/
def PyExc.message : PyExc → String
  | .valueError m => m
  | .runtimeError m => m
  | .typeError m => m

/-- True exactly when the computation raised. -/
def exceptIsErr {ε α : Type} : Except ε α → Bool
  | .error _ => true
  | .ok _ => false

/-- True exactly when the computation returned normally. -/
def exceptIsOk {ε α : Type} : Except ε α → Bool
  | .error _ => false
  | .ok _ => true

/-- Per-request state: the filesystem plus counters of how many times the
external converter was spawned and how many times the transcription backend
was invoked (used to state that no internal retry happens). -/
structure ReqState where
  fs : FS
  ffmpegRuns : Nat
  backendRuns : Nat
deriving DecidableEq, Repr

/-- The state at the start of a request: no temporary artifacts, nothing
invoked yet. -/
def ReqState.init : ReqState := ⟨FS.empty, 0, 0⟩

/-- The environment a single request runs in: the uploaded filename, the
fresh directory name `tempfile.mkdtemp` returns, what the spawned ffmpeg
process does (exit code, whether it creates the output file, its stderr),
whether the transcription backend succeeds, the backend's error text when it
fails, the measured preprocessing seconds, and whether the upload exceeds
the configured size limit. -/
structure ConvEnv where
  filename : String
  tmp : String
  ffmpegExit : Nat
  ffmpegCreatesOutput : Bool
  ffmpegStderr : String
  backendOk : Bool
  backendMsg : String
  preprocSeconds : ℚ
  uploadTooLarge : Bool

/-- Shared cleanup idiom of `backend/whisper/transcription.py` lines 211-216,
`backend/faster-whisper/transcription.py` lines 217-222 and
`backend/groq-api/transcription.py` lines 180-185: if the processed file
still exists, unlink it, then remove its parent directory when that
directory exists and is empty. -/
def cleanupOutputAndDir (fs : FS) (p : FPath) : FS :=
  if fs.hasFile p then
    let fs1 := fs.unlink p
    if fs1.hasDir p.dir && !fs1.dirNonempty p.dir then fs1.rmdir p.dir else fs1
  else fs

/-! ## Whisper-variant audio normalizer
Source: `backend/whisper/audio_utils.py`, `preprocess_audio` (lines 12-118). -/

/-- Input and output paths the whisper normalizer uses inside its temporary
directory: `in<original_ext>` and `proc_<basename-stem>.wav`
(audio_utils.py lines 35 and 58-59). -/
def whisper_preprocess_paths (env : ConvEnv) : FPath × FPath :=
  (⟨env.tmp, "in" ++ pySplitextExt env.filename⟩,
   ⟨env.tmp, "proc_" ++ pyStem env.filename ++ ".wav"⟩)

/-- Model of `backend/whisper/audio_utils.py preprocess_audio`: make a fresh
temporary directory, save the upload as `in<ext>`, run ffmpeg (which may or
may not create the output file), and check only the process return code.  On
a non-zero exit the inner `RuntimeError` carrying stderr is caught by the
function's own except block, which best-effort deletes the input file, the
output file and the directory, and re-raises wrapped in a second
`RuntimeError`; on exit 0 the input file is deleted immediately and the
output path returned (its existence is not checked). -/
def whisper_preprocess_audio (env : ConvEnv) (st : ReqState) :
    Except PyExc FPath × ReqState :=
  let (inP, outP) := whisper_preprocess_paths env
  let fs := (st.fs.mkdtemp env.tmp).writeFile inP
  let fs := if env.ffmpegCreatesOutput then fs.writeFile outP else fs
  let runs := st.ffmpegRuns + 1
  if env.ffmpegExit ≠ 0 then
    let fs := if fs.hasFile inP then fs.unlink inP else fs
    let fs := if fs.hasFile outP then fs.unlink outP else fs
    let fs := if fs.hasDir env.tmp && !fs.dirNonempty env.tmp then fs.rmdir env.tmp else fs
    (.error (.runtimeError ("Audio preprocessing failed: Audio preprocessing failed: "
        ++ env.ffmpegStderr)), ⟨fs, runs, st.backendRuns⟩)
  else
    (.ok outP, ⟨fs.unlink inP, runs, st.backendRuns⟩)

/-! ## Whisper-variant orchestrator and endpoint
Source: `backend/whisper/transcription.py transcribe_file_upload`
(lines 122-220) and `backend/whisper/main.py transcribe_audio`
(lines 91-129). -/

/-- Model of `backend/whisper/transcription.py transcribe_file_upload`
(filesystem and control flow; the metrics arithmetic is modelled
separately).  Validation raises `ValueError` before the try block; inside
the try, preprocessing errors propagate unchanged (the except clause
re-raises) and a backend failure raises the `RuntimeError` built in
`_transcribe_audio_file`; the finally block runs the shared cleanup idiom
whenever preprocessing had produced an output path. -/
def whisper_transcribe_file_upload (env : ConvEnv) (st : ReqState) :
    Except PyExc Unit × ReqState :=
  if ¬ is_valid_audio_format env.filename then
    (.error (.valueError
      "Invalid audio format. Supported formats: mp3, wav, flac, m4a, ogg, aac, webm"), st)
  else
    match whisper_preprocess_audio env st with
    | (.error e, st1) => (.error e, st1)
    | (.ok outP, st1) =>
      let st2 : ReqState := ⟨st1.fs, st1.ffmpegRuns, st1.backendRuns + 1⟩
      if env.backendOk then
        (.ok (), ⟨cleanupOutputAndDir st2.fs outP, st2.ffmpegRuns, st2.backendRuns⟩)
      else
        (.error (.runtimeError ("Failed to transcribe audio: " ++ env.backendMsg)),
         ⟨cleanupOutputAndDir st2.fs outP, st2.ffmpegRuns, st2.backendRuns⟩)

/-- An HTTP outcome: status code and the detail or error message. -/
structure HttpResult where
  status : Nat
  detail : String
deriving DecidableEq, Repr

/-- Model of `backend/whisper/main.py transcribe_audio`: an oversized upload
is rejected with 413 before the try block; inside the try every exception —
including the `ValueError` raised for an invalid format — is caught by the
single `except Exception` clause and mapped to HTTP 500 with detail
`"Transcription failed: " + str(e)`. -/
def whisper_transcribe_endpoint (env : ConvEnv) (st : ReqState) :
    HttpResult × ReqState :=
  if env.uploadTooLarge then
    (⟨413, "File too large"⟩, st)
  else
    match whisper_transcribe_file_upload env st with
    | (.ok _, st1) => (⟨200, ""⟩, st1)
    | (.error e, st1) => (⟨500, "Transcription failed: " ++ e.message⟩, st1)

/-! ## Groq-variant audio normalizer
Source: `backend/groq-api/audio_utils.py`, `preprocess_audio` (lines 10-63). -/

/-- Input and output paths the groq normalizer uses inside its temporary
directory: `input<original_ext>` and `processed_<basename-stem>.flac`
(audio_utils.py lines 33 and 38-39). -/
def groq_preprocess_paths (env : ConvEnv) : FPath × FPath :=
  (⟨env.tmp, "input" ++ pySplitextExt env.filename⟩,
   ⟨env.tmp, "processed_" ++ pyStem env.filename ++ ".flac"⟩)

/-- Model of `backend/groq-api/audio_utils.py preprocess_audio`: make a
fresh temporary directory, save the upload as `input<ext>`, run ffmpeg via
`subprocess.run(cmd, check=True)`.  A non-zero exit raises
`CalledProcessError`, which the except clause wraps in a `RuntimeError`
without deleting anything; on exit 0 the output path and the measured
seconds are returned, again without deleting the input file.  (The command
text embedded in `str(CalledProcessError)` is elided.) -/
def groq_preprocess_audio (env : ConvEnv) (st : ReqState) :
    Except PyExc (FPath × ℚ) × ReqState :=
  let (inP, outP) := groq_preprocess_paths env
  let fs := (st.fs.mkdtemp env.tmp).writeFile inP
  let fs := if env.ffmpegCreatesOutput then fs.writeFile outP else fs
  let runs := st.ffmpegRuns + 1
  if env.ffmpegExit ≠ 0 then
    (.error (.runtimeError ("Audio preprocessing failed: Command returned non-zero exit status "
        ++ toString env.ffmpegExit)), ⟨fs, runs, st.backendRuns⟩)
  else
    (.ok (outP, env.preprocSeconds), ⟨fs, runs, st.backendRuns⟩)

/-! ## Groq-variant transcription service and endpoint
Source: `backend/groq-api/transcription.py` (async `transcribe`,
lines 120-187) and `backend/groq-api/main.py transcribe_audio`
(lines 64-116). -/

/-- Model of `backend/groq-api/transcription.py transcribe` (filesystem and
control flow): open the file, run the API call in an executor, and in the
finally block unlink the processed file and remove its parent directory when
empty.  Opening a missing file raises before the API call. -/
def groq_transcribe (env : ConvEnv) (p : FPath) (st : ReqState) :
    Except PyExc Unit × ReqState :=
  if ¬ st.fs.hasFile p then
    (.error (.runtimeError "No such file or directory"),
     ⟨cleanupOutputAndDir st.fs p, st.ffmpegRuns, st.backendRuns⟩)
  else
    let st1 : ReqState := ⟨st.fs, st.ffmpegRuns, st.backendRuns + 1⟩
    if env.backendOk then
      (.ok (), ⟨cleanupOutputAndDir st1.fs p, st1.ffmpegRuns, st1.backendRuns⟩)
    else
      (.error (.runtimeError env.backendMsg),
       ⟨cleanupOutputAndDir st1.fs p, st1.ffmpegRuns, st1.backendRuns⟩)

/-- A Python value flowing through `backend/groq-api/main.py`: either a
filesystem path or a float.  `preprocess_audio` returns the pair
`(output_path, processing_seconds)`, but main.py line 91 unpacks it as
`preprocessed_filename, preprocessed_path = ...`, so the variable
`preprocessed_path` receives the float. -/
inductive PyVal where
  | path (p : FPath)
  | num (q : ℚ)

/-- Model of `get_file_size_mb` (`backend/groq-api/audio_utils.py`
lines 81-91) as called with an arbitrary Python value: `os.path.getsize`
raises `TypeError` when handed a float instead of a path.  (File sizes are
not modelled; a path argument yields size 0.) -/
def groq_get_file_size_mb (fs : FS) (v : PyVal) : Except PyExc ℚ :=
  match v with
  | .num _ => .error (.typeError "float object cannot be interpreted as a path")
  | .path p => if fs.hasFile p then .ok 0 else .error (.runtimeError "No such file or directory")

/-- The `MAX_FILE_SIZE_MB` default of `backend/groq-api/main.py` line 47. -/
def groqMaxFileSizeMb : ℚ := 25

/-- Model of `backend/groq-api/main.py transcribe_audio`: an invalid format
is rejected with HTTP 400 before the try block; inside the try the service
calls `preprocess_audio`, then `get_file_size_mb(preprocessed_path)` — where
`preprocessed_path` is the float from the mis-unpacked tuple — then the
size-limit check (whose `HTTPException(400)` would itself be re-caught by
`except Exception`), then the async `transcribe`; every exception in the try
maps to HTTP 500 with `str(e)` as detail. -/
def groq_transcribe_endpoint (env : ConvEnv) (st : ReqState) :
    HttpResult × ReqState :=
  if ¬ is_valid_audio_format env.filename then
    (⟨400, "Invalid file format. Supported formats: mp3, wav, m4a, flac, ogg, aac"⟩, st)
  else
    match groq_preprocess_audio env st with
    | (.error e, st1) => (⟨500, e.message⟩, st1)
    | (.ok (outP, secs), st1) =>
      let preprocessed_path : PyVal := .num secs
      match groq_get_file_size_mb st1.fs preprocessed_path with
      | .error e => (⟨500, e.message⟩, st1)
      | .ok size =>
        if size > groqMaxFileSizeMb then
          (⟨500, "File too large"⟩, st1)
        else
          match groq_transcribe env outP st1 with
          | (.ok _, st2) => (⟨200, ""⟩, st2)
          | (.error e, st2) => (⟨500, e.message⟩, st2)

/-! ## Faster-whisper-variant orchestrator and endpoint
Source: `backend/faster-whisper/transcription.py transcribe_file_upload`
(lines 76-226) and `backend/faster-whisper/main.py transcribe_audio`
(lines 113-156).  The variant's own `audio_utils.py` is not part of the
sources; its outcome (a produced path, or some exception) is therefore an
environment parameter, which suffices for the endpoint's status mapping
because `transcribe_file_upload` wraps every exception from its try block —
whatever its type — into a `RuntimeError`. -/

/-- The environment of one faster-whisper request: the uploaded filename and
the combined outcome of the preprocessing and inference stages inside the
try block of `transcribe_file_upload`. -/
structure FwEnv where
  filename : String
  stageResult : Except PyExc Unit

/-- Model of `backend/faster-whisper/transcription.py
transcribe_file_upload` (control flow): validation raises `ValueError`
before the try block; any exception inside the try is logged and re-raised
as `RuntimeError("Transcription failed: " + str(e))` (lines 211-213). -/
def fw_transcribe_file_upload (env : FwEnv) : Except PyExc Unit :=
  if ¬ is_valid_audio_format env.filename then
    .error (.valueError
      "Invalid audio format. Supported formats: mp3, wav, flac, m4a, ogg, aac, webm")
  else
    match env.stageResult with
    | .ok () => .ok ()
    | .error e => .error (.runtimeError ("Transcription failed: " ++ e.message))

/-- Model of `backend/faster-whisper/main.py transcribe_audio`: an empty
filename raises `ValueError` inside the try; `except ValueError` maps to
HTTP 400 with `str(e)`, `except Exception` to HTTP 500 with `str(e)`. -/
def fw_transcribe_endpoint (env : FwEnv) : HttpResult :=
  if env.filename = "" then
    ⟨400, "No filename provided"⟩
  else
    match fw_transcribe_file_upload env with
    | .ok _ => ⟨200, ""⟩
    | .error (.valueError m) => ⟨400, m⟩
    | .error e => ⟨500, e.message⟩

/-! ## Timing metrics arithmetic
Source: `backend/whisper/transcription.py` lines 134-203 and
`backend/faster-whisper/transcription.py` lines 88-205.  Durations are
modelled as exact rationals in seconds. -/

/-- Model of Python's `round` to an integer (round-half-to-even). -/
def pyRound (q : ℚ) : ℤ :=
  let f : ℤ := ⌊q⌋
  let r : ℚ := q - f
  if r < 1/2 then f
  else if 1/2 < r then f + 1
  else if f % 2 = 0 then f else f + 1

/-- The whisper variant's metrics dict at the moment the response is built:
`model_load` is the service-lifetime load time, the stage entries come from
the request and from `_transcribe_audio_file`, and `total` is the wall clock
from `total_start`.  The `cleanup` entry is still the initial 0 at that
point (it is only assigned in the finally block, after the response exists),
and `_transcribe_audio_file` returns no `cleanup` key in this variant. -/
structure WhisperMetrics where
  model_load : ℚ
  validation : ℚ
  audio_preprocessing : ℚ
  audio_loading : ℚ
  feature_extraction : ℚ
  model_inference : ℚ
  decoding : ℚ
  postprocessing : ℚ
  total : ℚ

/-- The `cleanup` entry of the whisper metrics dict when the response is
built (transcription.py line 143: initialized to 0 and not yet updated). -/
def whisperCleanupAtBuild : ℚ := 0

/-- Model of `measured_time` (`backend/whisper/transcription.py` line 177):
the sum of every metrics entry except `total`, `model_load` and
`overhead`. -/
def whisper_measured_time (m : WhisperMetrics) : ℚ :=
  m.validation + m.audio_preprocessing + m.audio_loading + m.feature_extraction
    + m.model_inference + m.decoding + m.postprocessing + whisperCleanupAtBuild

/-- Model of `metrics["overhead"]` (`backend/whisper/transcription.py`
line 178): `total - measured_time - model_load`. -/
def whisper_overhead (m : WhisperMetrics) : ℚ :=
  m.total - whisper_measured_time m - m.model_load

/-- The whisper variant's `simplified_response` payload (text, language and
the millisecond-rounded timings; the constant empty `segments` list is
omitted from the record but kept in the key list below). -/
structure WhisperResponse where
  text : String
  language : String
  total_ms : ℤ
  preprocessing_ms : ℤ
  model_inference_ms : ℤ
  overhead_ms : ℤ
deriving DecidableEq, Repr

/-- Model of the `simplified_response` dict literal of
`backend/whisper/transcription.py` lines 181-191. -/
def whisper_simplified_response (transcription : String) (m : WhisperMetrics) :
    WhisperResponse :=
  { text := transcription
    language := "en"
    total_ms := pyRound (m.total * 1000)
    preprocessing_ms := pyRound ((m.validation + m.audio_preprocessing) * 1000)
    model_inference_ms := pyRound ((m.audio_loading + m.feature_extraction
      + m.model_inference + m.decoding) * 1000)
    overhead_ms := pyRound (whisper_overhead m * 1000) }

/-- Wall-clock well-formedness of a whisper metrics record: every entry is a
non-negative duration and the per-request stages are disjoint sub-intervals
of the request, so their sum is at most `total`.  `model_load` is measured
once at service start and is not part of the request wall clock. -/
def WhisperMetricsWF (m : WhisperMetrics) : Prop :=
  0 ≤ m.model_load ∧ 0 ≤ m.validation ∧ 0 ≤ m.audio_preprocessing ∧
  0 ≤ m.audio_loading ∧ 0 ≤ m.feature_extraction ∧ 0 ≤ m.model_inference ∧
  0 ≤ m.decoding ∧ 0 ≤ m.postprocessing ∧ 0 ≤ m.total ∧
  m.validation + m.audio_preprocessing + m.audio_loading + m.feature_extraction
    + m.model_inference + m.decoding + m.postprocessing ≤ m.total

/-- The faster-whisper variant's metrics dict at response-build time.
`feature_extraction` stays at its initial 0 (the detailed metrics of
`_transcribe_audio_file` never set it) and `overhead` is 0 when
`measured_time` is computed. -/
structure FWMetrics where
  model_load : ℚ
  validation : ℚ
  audio_preprocessing : ℚ
  audio_loading : ℚ
  model_inference : ℚ
  decoding : ℚ
  postprocessing : ℚ
  cleanup : ℚ
  total : ℚ

/-- Model of `measured_time` (`backend/faster-whisper/transcription.py`
line 137): `sum(metrics.values()) - metrics["total"] - metrics["model_load"]`,
where the values at that point are the stage entries plus `overhead = 0`. -/
def fw_measured_time (m : FWMetrics) : ℚ :=
  m.validation + m.audio_preprocessing + m.audio_loading + 0
    + m.model_inference + m.decoding + m.postprocessing + m.cleanup + 0

/-- Model of `metrics["overhead"]` (`backend/faster-whisper/transcription.py`
line 138): `total - measured_time`. -/
def fw_overhead (m : FWMetrics) : ℚ :=
  m.total - fw_measured_time m

/-- Model of `preprocessing_time` (`backend/faster-whisper/transcription.py`
line 177): validation + audio preprocessing + audio loading. -/
def fw_preprocessing_time (m : FWMetrics) : ℚ :=
  m.validation + m.audio_preprocessing + m.audio_loading

/-- Model of `model_time` (`backend/faster-whisper/transcription.py`
line 178): feature extraction (still 0) + inference + decoding +
postprocessing. -/
def fw_model_time (m : FWMetrics) : ℚ :=
  0 + m.model_inference + m.decoding + m.postprocessing

/-- The faster-whisper variant's `simplified_response` payload. -/
structure FWResponse where
  text : String
  language : String
  total_ms : ℤ
  preprocessing_ms : ℤ
  model_inference_ms : ℤ
  overhead_ms : ℤ
deriving DecidableEq, Repr

/-- Model of the `simplified_response` dict literal of
`backend/faster-whisper/transcription.py` lines 191-205. -/
def fw_simplified_response (transcription : String) (m : FWMetrics) :
    FWResponse :=
  { text := transcription
    language := "en"
    total_ms := pyRound (m.total * 1000)
    preprocessing_ms := pyRound (fw_preprocessing_time m * 1000)
    model_inference_ms := pyRound (fw_model_time m * 1000)
    overhead_ms := pyRound ((fw_overhead m + m.cleanup) * 1000) }

/-! ## Response payload shapes
The top-level keys of each variant's successful response dict, transcribed
from the dict literals in the sources. -/

/-- Top-level keys of the whisper `simplified_response`
(`backend/whisper/transcription.py` lines 181-191). -/
def whisper_response_keys : List String :=
  ["text", "language", "segments", "total_ms", "preprocessing_ms",
   "model_inference_ms", "overhead_ms"]

/-- Top-level keys of the faster-whisper `simplified_response`
(`backend/faster-whisper/transcription.py` lines 191-205). -/
def fw_response_keys : List String :=
  ["text", "language", "segments", "total_ms", "preprocessing_ms",
   "model_inference_ms", "overhead_ms", "metrics"]

/-- The groq `_format_response` payload
(`backend/groq-api/transcription.py` lines 219-232): transcribed text, the
elapsed time in seconds and the model name. -/
structure GroqFormatted where
  text : String
  processing_time : ℚ
  model : String

/-- Model of `backend/groq-api/transcription.py _format_response`. -/
def groq_format_response (text : String) (elapsed : ℚ) (model : String) :
    GroqFormatted :=
  { text := text, processing_time := elapsed, model := model }

/-- Top-level keys of the dict `_format_response` returns
(`backend/groq-api/transcription.py` lines 228-232). -/
def groq_format_response_keys : List String :=
  ["text", "processing_time", "model"]

/-- Top-level keys of the response the groq async `transcribe` produces:
the `_format_response` keys plus the `performance` entry added at
line 172. -/
def groq_transcribe_result_keys : List String :=
  groq_format_response_keys ++ ["performance"]

/-! ## Dispatch of the blocking calls
Static model of which execution context runs each potentially long-running
call of a request, transcribed from the call sites. -/

/-- Execution context of a call: directly on the cooperative scheduler
thread (the asyncio event loop), or on a separate worker via
`loop.run_in_executor`. -/
inductive ExecCtx where
  | eventLoop
  | workerThread
deriving DecidableEq, Repr

/-- One potentially long-running call of a request: its stage name, where it
executes, and whether it blocks the calling thread until done. -/
structure DispatchStep where
  stage : String
  ctx : ExecCtx
  blockingCall : Bool
deriving DecidableEq, Repr

/-- The blocking calls of one whisper-variant request:
`backend/whisper/audio_utils.py` lines 82-88 run
`subprocess.Popen(...).communicate()` directly inside the `async def`
`preprocess_audio` (no executor), and
`backend/whisper/transcription.py` lines 164-168 run the model inference via
`loop.run_in_executor(self.executor, ...)`. -/
def whisper_request_dispatch : List DispatchStep :=
  [⟨"ffmpeg_wait", .eventLoop, true⟩,
   ⟨"model_inference", .workerThread, true⟩]

/-- The blocking calls of one groq-variant request:
`backend/groq-api/main.py` line 91 calls the synchronous `preprocess_audio`
(which runs `subprocess.run`, audio_utils.py line 55) directly in the async
endpoint, and `backend/groq-api/transcription.py` lines 154-165 run the API
call via `loop.run_in_executor(None, ...)`. -/
def groq_request_dispatch : List DispatchStep :=
  [⟨"ffmpeg_wait", .eventLoop, true⟩,
   ⟨"api_call", .workerThread, true⟩]

/-- The blocking inference call of one faster-whisper-variant request:
`backend/faster-whisper/transcription.py` lines 124-128 run it via
`loop.run_in_executor(None, ...)`.  The variant's normalizer module is not
among the sources, so its conversion wait is not listed. -/
def fw_request_dispatch : List DispatchStep :=
  [⟨"model_inference", .workerThread, true⟩]

/-- True when every blocking call in the list runs on a worker. -/
def allBlockingOnWorker (l : List DispatchStep) : Bool :=
  l.all (fun s => !s.blockingCall || decide (s.ctx = ExecCtx.workerThread))

/-! ## Service construction in faster-whisper main.py
Source: `backend/faster-whisper/main.py` lines 82-85 and
`backend/faster-whisper/transcription.py` lines 26-36. -/

/-- Python keyword-argument binding against a parameter list with no
`**kwargs`: the call raises `TypeError` exactly when some keyword is not a
parameter name. -/
def pyCallRejectsKwargs (params : List String) (kwargs : List String) : Bool :=
  kwargs.any (fun k => !params.contains k)

/-- The parameters of `TranscriptionService.__init__` in
`backend/faster-whisper/transcription.py` line 26 (besides `self`). -/
def fw_init_params : List String := ["model_path"]

/-- The keyword arguments of the module-level construction
`TranscriptionService(model_size=MODEL_SIZE, model_path=selected_model_path)`
in `backend/faster-whisper/main.py` lines 82-85. -/
def fw_main_call_kwargs : List String := ["model_size", "model_path"]

/-- Model of importing `backend/faster-whisper/main.py`: whatever values the
environment supplies for `MODEL_SIZE` and the selected model path, the
module-level construction passes the keyword names above, so binding fails
with `TypeError` before the app can serve a request. -/
def fw_main_startup (_modelSize : String) (_selectedPath : Option String) :
    Except PyExc Unit :=
  if pyCallRejectsKwargs fw_init_params fw_main_call_kwargs then
    .error (.typeError "got an unexpected keyword argument model_size")
  else
    .ok ()

/-! ## Behaviour of the normalizers, starting from a clean request state -/

theorem in_base_ne_proc_base (e s : String) :
    ("in" ++ e : String) ≠ ("proc_" ++ s ++ ".wav" : String) := by
  intro h
  have hd : ('i' :: 'n' :: e.data)
      = ('p' :: 'r' :: 'o' :: 'c' :: '_' :: (s.data ++ ".wav".data)) :=
    congrArg String.data h
  injection hd with h1 _
  exact absurd h1 (by decide)

theorem input_base_ne_processed_base (e s : String) :
    ("input" ++ e : String) ≠ ("processed_" ++ s ++ ".flac" : String) := by
  intro h
  have hd : ('i' :: 'n' :: 'p' :: 'u' :: 't' :: e.data)
      = ('p' :: 'r' :: 'o' :: 'c' :: 'e' :: 's' :: 's' :: 'e' :: 'd' :: '_'
          :: (s.data ++ ".flac".data)) :=
    congrArg String.data h
  injection hd with h1 _
  exact absurd h1 (by decide)

theorem whisper_in_ne_out (env : ConvEnv) :
    (whisper_preprocess_paths env).1 ≠ (whisper_preprocess_paths env).2 := by
  intro h
  exact in_base_ne_proc_base (pySplitextExt env.filename) (pyStem env.filename)
    (congrArg FPath.base h)

theorem groq_in_ne_out (env : ConvEnv) :
    (groq_preprocess_paths env).1 ≠ (groq_preprocess_paths env).2 := by
  intro h
  exact input_base_ne_processed_base (pySplitextExt env.filename) (pyStem env.filename)
    (congrArg FPath.base h)

theorem whisper_preprocess_fail (env : ConvEnv) (h : env.ffmpegExit ≠ 0) :
    whisper_preprocess_audio env ReqState.init =
      (.error (.runtimeError ("Audio preprocessing failed: Audio preprocessing failed: "
          ++ env.ffmpegStderr)), ⟨FS.empty, 1, 0⟩) := by
  have hne := whisper_in_ne_out env
  have hne2 := Ne.symm hne
  unfold whisper_preprocess_audio ReqState.init
  cases hc : env.ffmpegCreatesOutput <;>
    simp [h, hc, whisper_preprocess_paths, FS.mkdtemp, FS.writeFile, FS.unlink,
      FS.hasFile, FS.hasDir, FS.dirNonempty, FS.rmdir, FS.empty,
      (by simpa [whisper_preprocess_paths] using hne : _),
      (by simpa [whisper_preprocess_paths] using hne2 : _)]

theorem whisper_preprocess_exit0 (env : ConvEnv) (hex : env.ffmpegExit = 0) :
    whisper_preprocess_audio env ReqState.init =
      (.ok (whisper_preprocess_paths env).2,
       ⟨⟨(if env.ffmpegCreatesOutput then [(whisper_preprocess_paths env).2] else []),
         [env.tmp]⟩, 1, 0⟩) := by
  have hne := whisper_in_ne_out env
  have hne2 := Ne.symm hne
  unfold whisper_preprocess_audio ReqState.init
  cases hc : env.ffmpegCreatesOutput <;>
    simp [hex, hc, whisper_preprocess_paths, FS.mkdtemp, FS.writeFile, FS.unlink, FS.empty,
      (by simpa [whisper_preprocess_paths] using hne : _),
      (by simpa [whisper_preprocess_paths] using hne2 : _)]

theorem groq_preprocess_fail (env : ConvEnv) (h : env.ffmpegExit ≠ 0) :
    groq_preprocess_audio env ReqState.init =
      (.error (.runtimeError ("Audio preprocessing failed: Command returned non-zero exit status "
          ++ toString env.ffmpegExit)),
       ⟨⟨(if env.ffmpegCreatesOutput then
            [(groq_preprocess_paths env).2, (groq_preprocess_paths env).1]
          else [(groq_preprocess_paths env).1]), [env.tmp]⟩, 1, 0⟩) := by
  have hne := groq_in_ne_out env
  have hne2 := Ne.symm hne
  unfold groq_preprocess_audio ReqState.init
  cases hc : env.ffmpegCreatesOutput <;>
    simp [h, hc, groq_preprocess_paths, FS.mkdtemp, FS.writeFile, FS.empty,
      (by simpa [groq_preprocess_paths] using hne : _),
      (by simpa [groq_preprocess_paths] using hne2 : _)]

theorem groq_preprocess_exit0 (env : ConvEnv) (hex : env.ffmpegExit = 0) :
    groq_preprocess_audio env ReqState.init =
      (.ok ((groq_preprocess_paths env).2, env.preprocSeconds),
       ⟨⟨(if env.ffmpegCreatesOutput then
            [(groq_preprocess_paths env).2, (groq_preprocess_paths env).1]
          else [(groq_preprocess_paths env).1]), [env.tmp]⟩, 1, 0⟩) := by
  have hne := groq_in_ne_out env
  have hne2 := Ne.symm hne
  unfold groq_preprocess_audio ReqState.init
  cases hc : env.ffmpegCreatesOutput <;>
    simp [hex, hc, groq_preprocess_paths, FS.mkdtemp, FS.writeFile, FS.empty,
      (by simpa [groq_preprocess_paths] using hne : _),
      (by simpa [groq_preprocess_paths] using hne2 : _)]

theorem cleanup_single (p : FPath) (d : String) (hd : p.dir = d) :
    cleanupOutputAndDir ⟨[p], [d]⟩ p = FS.empty := by
  subst hd
  simp [cleanupOutputAndDir, FS.hasFile, FS.unlink, FS.hasDir, FS.dirNonempty,
    FS.rmdir, FS.empty]

/-! ## Claim C1: temporary-file lifecycle over a whole request -/

/-- A request environment in which every step succeeds (valid mp3 upload,
ffmpeg exits 0 and creates its output, backend succeeds). -/
def envAllOk : ConvEnv :=
  { filename := "clip.mp3", tmp := "T", ffmpegExit := 0, ffmpegCreatesOutput := true,
    ffmpegStderr := "", backendOk := true, backendMsg := "", preprocSeconds := 0,
    uploadTooLarge := false }

/-- C1 (counterexample): in the groq-api variant the claim fails — after a
request in which validation and conversion succeed, the raw input temp file
`input.mp3`, the converted output and the temporary directory all remain on
disk when the request completes, so it is not the case that no temporary
file or directory created for the request remains. -/
theorem groq_request_leaks_temp_files :
    (groq_transcribe_endpoint envAllOk ReqState.init).2.fs.hasFile
        ⟨"T", "input.mp3"⟩ = true ∧
    (groq_transcribe_endpoint envAllOk ReqState.init).2.fs.hasFile
        ⟨"T", "processed_clip.flac"⟩ = true ∧
    (groq_transcribe_endpoint envAllOk ReqState.init).2.fs.hasDir "T" = true ∧
    (groq_transcribe_endpoint envAllOk ReqState.init).2.fs ≠ FS.empty := by
  refine ⟨by decide, by decide, by decide, by decide⟩

/-- C1 (amended): in the whisper variant the claim holds: for every request
environment in which the converter creates its output file whenever it exits
with code 0 (as ffmpeg does), the request ends with an empty temporary
filesystem on every path — early 413 rejection, validation failure,
conversion failure (with or without a partial output file), backend failure
and success. -/
theorem whisper_request_no_temp_leak (env : ConvEnv)
    (h : env.ffmpegExit = 0 → env.ffmpegCreatesOutput = true) :
    (whisper_transcribe_endpoint env ReqState.init).2.fs = FS.empty := by
  unfold whisper_transcribe_endpoint whisper_transcribe_file_upload
  cases hU : env.uploadTooLarge with
  | true => simp [hU, ReqState.init]
  | false =>
    cases hv : is_valid_audio_format env.filename with
    | false => simp [hU, hv, ReqState.init]
    | true =>
      by_cases hex : env.ffmpegExit ≠ 0
      · rw [whisper_preprocess_fail env hex]
        simp [hU, hv]
      · have hex0 : env.ffmpegExit = 0 := by omega
        rw [whisper_preprocess_exit0 env hex0, h hex0]
        cases hb : env.backendOk with
        | true =>
          simp only [hU, hv, hb]
          simpa using cleanup_single (whisper_preprocess_paths env).2 env.tmp rfl
        | false =>
          simp only [hU, hv, hb]
          simpa using cleanup_single (whisper_preprocess_paths env).2 env.tmp rfl

/-- C1 (witness): the amended theorem applied to the all-success
environment. -/
theorem whisper_request_no_temp_leak_witness :
    (envAllOk.ffmpegExit = 0 → envAllOk.ffmpegCreatesOutput = true) ∧
    (whisper_transcribe_endpoint envAllOk ReqState.init).2.fs = FS.empty :=
  ⟨fun _ => rfl, whisper_request_no_temp_leak envAllOk (fun _ => rfl)⟩

/-! ## Claim C5: normalizer cleanup on failure -/

/-- An environment in which the conversion fails (ffmpeg exits 1 without
producing an output file) for a valid mp3 upload. -/
def envConvFail : ConvEnv :=
  { filename := "clip.mp3", tmp := "T", ffmpegExit := 1, ffmpegCreatesOutput := false,
    ffmpegStderr := "boom", backendOk := true, backendMsg := "", preprocSeconds := 0,
    uploadTooLarge := false }

/-- C5 (counterexample): the groq-api normalizer does not clean up on
failure — after a failed conversion the call propagates an error, yet the
input temp file and the temporary directory are still on disk, refuting the
claim that every failing normalizer call deletes its temporary resources. -/
theorem groq_preprocess_fail_leaves_temp :
    exceptIsErr (groq_preprocess_audio envConvFail ReqState.init).1 = true ∧
    (groq_preprocess_audio envConvFail ReqState.init).2.fs.hasFile
        ⟨"T", "input.mp3"⟩ = true ∧
    (groq_preprocess_audio envConvFail ReqState.init).2.fs.hasDir "T" = true := by
  refine ⟨by decide, by decide, by decide⟩

/-- C5 (amended): the whisper-variant normalizer satisfies the claim: for
every environment in which the conversion fails, the call propagates an
error (the wrapped `RuntimeError`) and deletes the input temp file, any
partially created output file and the temporary directory, leaving the
filesystem empty. -/
theorem whisper_preprocess_failure_cleans_all (env : ConvEnv)
    (h : env.ffmpegExit ≠ 0) :
    exceptIsErr (whisper_preprocess_audio env ReqState.init).1 = true ∧
    (whisper_preprocess_audio env ReqState.init).2.fs = FS.empty := by
  rw [whisper_preprocess_fail env h]
  exact ⟨rfl, rfl⟩

/-- C5 (witness): the amended theorem applied to the failing-conversion
environment. -/
theorem whisper_preprocess_failure_cleans_all_witness :
    envConvFail.ffmpegExit ≠ 0 ∧
    (exceptIsErr (whisper_preprocess_audio envConvFail ReqState.init).1 = true ∧
     (whisper_preprocess_audio envConvFail ReqState.init).2.fs = FS.empty) :=
  ⟨by decide, whisper_preprocess_failure_cleans_all envConvFail (by decide)⟩

/-! ## Claim C6: normalizer behaviour on success -/

/-- C6 (counterexample): on a successful conversion the groq-api normalizer
does not delete the raw input temp file — it is still on disk when the call
returns — refuting the claim that after every successful normalization the
input temp file has been deleted. -/
theorem groq_preprocess_success_keeps_input :
    exceptIsOk (groq_preprocess_audio envAllOk ReqState.init).1 = true ∧
    (groq_preprocess_audio envAllOk ReqState.init).2.fs.hasFile
        ⟨"T", "input.mp3"⟩ = true := by
  refine ⟨by decide, by decide⟩

/-- C6 (amended): the whisper-variant normalizer satisfies the claim: for
every environment in which ffmpeg exits 0 and creates its output, the call
returns the output path, the output file exists, the raw input temp file has
been deleted, and the temporary directory is retained for the caller. -/
theorem whisper_preprocess_success_state (env : ConvEnv)
    (hex : env.ffmpegExit = 0) (hc : env.ffmpegCreatesOutput = true) :
    (whisper_preprocess_audio env ReqState.init).1 =
        .ok (whisper_preprocess_paths env).2 ∧
    (whisper_preprocess_audio env ReqState.init).2.fs.hasFile
        (whisper_preprocess_paths env).2 = true ∧
    (whisper_preprocess_audio env ReqState.init).2.fs.hasFile
        (whisper_preprocess_paths env).1 = false ∧
    (whisper_preprocess_audio env ReqState.init).2.fs.hasDir env.tmp = true := by
  rw [whisper_preprocess_exit0 env hex, hc]
  refine ⟨rfl, ?_, ?_, ?_⟩
  · simp [FS.hasFile]
  · simp [FS.hasFile, whisper_in_ne_out env]
  · simp [FS.hasDir]

/-- C6 (witness): the amended theorem applied to the all-success
environment. -/
theorem whisper_preprocess_success_state_witness :
    envAllOk.ffmpegExit = 0 ∧ envAllOk.ffmpegCreatesOutput = true ∧
    (whisper_preprocess_audio envAllOk ReqState.init).2.fs.hasFile
        (whisper_preprocess_paths envAllOk).2 = true :=
  ⟨rfl, rfl, (whisper_preprocess_success_state envAllOk rfl rfl).2.1⟩

/-! ## Claim C7: which signals the normalizer consults -/

/-- An environment in which ffmpeg exits 0 but produces no output file. -/
def envExitZeroNoOutput : ConvEnv :=
  { filename := "clip.mp3", tmp := "T", ffmpegExit := 0, ffmpegCreatesOutput := false,
    ffmpegStderr := "", backendOk := true, backendMsg := "", preprocSeconds := 0,
    uploadTooLarge := false }

/-- C7 (counterexample): the claim says a missing output file is treated as
failure, but when the converter exits 0 without creating the output file the
whisper normalizer still returns success (and the returned output path does
not exist); output-file existence is never consulted. -/
theorem whisper_preprocess_ignores_missing_output :
    exceptIsOk (whisper_preprocess_audio envExitZeroNoOutput ReqState.init).1 = true ∧
    (whisper_preprocess_audio envExitZeroNoOutput ReqState.init).2.fs.hasFile
        ⟨"T", "proc_clip.wav"⟩ = false := by
  refine ⟨by decide, by decide⟩

/-- C7 (amended): for every environment, both normalizers treat the call as
failed exactly when the process exit code is non-zero — the exit code is the
only success signal consulted, output-file existence is not — and on failure
the whisper variant's error carries the process's stderr text. -/
theorem preprocess_fails_iff_nonzero_exit (env : ConvEnv) :
    (exceptIsErr (whisper_preprocess_audio env ReqState.init).1
      = decide (env.ffmpegExit ≠ 0)) ∧
    (exceptIsErr (groq_preprocess_audio env ReqState.init).1
      = decide (env.ffmpegExit ≠ 0)) ∧
    (env.ffmpegExit ≠ 0 →
      (whisper_preprocess_audio env ReqState.init).1 =
        .error (.runtimeError ("Audio preprocessing failed: Audio preprocessing failed: "
          ++ env.ffmpegStderr))) := by
  by_cases h : env.ffmpegExit ≠ 0
  · refine ⟨?_, ?_, fun _ => ?_⟩
    · rw [whisper_preprocess_fail env h]
      simp [h, exceptIsErr]
    · rw [groq_preprocess_fail env h]
      simp [h, exceptIsErr]
    · rw [whisper_preprocess_fail env h]
  · have hex0 : env.ffmpegExit = 0 := by omega
    refine ⟨?_, ?_, fun hc => absurd hex0 hc⟩
    · rw [whisper_preprocess_exit0 env hex0]
      simp [hex0, exceptIsErr]
    · rw [groq_preprocess_exit0 env hex0]
      simp [hex0, exceptIsErr]

/-- C7 (witness): the amended theorem applied to the failing-conversion
environment, including the carried stderr text. -/
theorem preprocess_fails_iff_nonzero_exit_witness :
    exceptIsErr (whisper_preprocess_audio envConvFail ReqState.init).1 = true ∧
    (whisper_preprocess_audio envConvFail ReqState.init).1 =
      .error (.runtimeError "Audio preprocessing failed: Audio preprocessing failed: boom") :=
  ⟨by decide, (preprocess_fails_iff_nonzero_exit envConvFail).2.2 (by decide)⟩

/-! ## Claim C4: HTTP status mapping -/

theorem fw_endpoint_invalid_400 (env : FwEnv) (hne : env.filename ≠ "")
    (hv : is_valid_audio_format env.filename = false) :
    fw_transcribe_endpoint env =
      ⟨400, "Invalid audio format. Supported formats: mp3, wav, flac, m4a, ogg, aac, webm"⟩ := by
  unfold fw_transcribe_endpoint fw_transcribe_file_upload
  rw [if_neg hne]
  simp [hv]

theorem fw_endpoint_stage_error_500 (env : FwEnv) (e : PyExc)
    (hne : env.filename ≠ "") (hv : is_valid_audio_format env.filename = true)
    (hs : env.stageResult = .error e) :
    fw_transcribe_endpoint env =
      ⟨500, "Transcription failed: " ++ e.message⟩ := by
  unfold fw_transcribe_endpoint fw_transcribe_file_upload
  rw [if_neg hne, hs]
  simp [hv, PyExc.message]

theorem groq_endpoint_invalid_400 (env : ConvEnv)
    (hv : is_valid_audio_format env.filename = false) :
    groq_transcribe_endpoint env ReqState.init =
      (⟨400, "Invalid file format. Supported formats: mp3, wav, m4a, flac, ogg, aac"⟩,
       ReqState.init) := by
  unfold groq_transcribe_endpoint
  simp [hv]

theorem groq_endpoint_preproc_fail_500 (env : ConvEnv)
    (hv : is_valid_audio_format env.filename = true) (h : env.ffmpegExit ≠ 0) :
    (groq_transcribe_endpoint env ReqState.init).1.status = 500 := by
  unfold groq_transcribe_endpoint
  rw [groq_preprocess_fail env h]
  simp [hv]

theorem whisper_endpoint_invalid_500 (env : ConvEnv)
    (hU : env.uploadTooLarge = false)
    (hv : is_valid_audio_format env.filename = false) :
    (whisper_transcribe_endpoint env ReqState.init).1 =
      ⟨500, "Transcription failed: Invalid audio format. Supported formats: mp3, wav, flac, m4a, ogg, aac, webm"⟩ := by
  unfold whisper_transcribe_endpoint whisper_transcribe_file_upload
  simp [hU, hv, PyExc.message]

theorem whisper_endpoint_preproc_fail_500 (env : ConvEnv)
    (hU : env.uploadTooLarge = false)
    (hv : is_valid_audio_format env.filename = true) (h : env.ffmpegExit ≠ 0) :
    (whisper_transcribe_endpoint env ReqState.init).1.status = 500 := by
  unfold whisper_transcribe_endpoint whisper_transcribe_file_upload
  rw [whisper_preprocess_fail env h]
  simp [hU, hv]

theorem whisper_endpoint_runs_le_one (env : ConvEnv) :
    (whisper_transcribe_endpoint env ReqState.init).2.ffmpegRuns ≤ 1 ∧
    (whisper_transcribe_endpoint env ReqState.init).2.backendRuns ≤ 1 := by
  unfold whisper_transcribe_endpoint whisper_transcribe_file_upload
  cases hU : env.uploadTooLarge with
  | true => simp [ReqState.init]
  | false =>
    cases hv : is_valid_audio_format env.filename with
    | false => simp [hv, ReqState.init]
    | true =>
      by_cases hex : env.ffmpegExit ≠ 0
      · rw [whisper_preprocess_fail env hex]
        simp [hv]
      · have hex0 : env.ffmpegExit = 0 := by omega
        rw [whisper_preprocess_exit0 env hex0]
        cases hb : env.backendOk <;> simp [hv, hb]

theorem groq_endpoint_runs_le_one (env : ConvEnv) :
    (groq_transcribe_endpoint env ReqState.init).2.ffmpegRuns ≤ 1 ∧
    (groq_transcribe_endpoint env ReqState.init).2.backendRuns ≤ 1 := by
  unfold groq_transcribe_endpoint
  cases hv : is_valid_audio_format env.filename with
  | false => simp [hv, ReqState.init]
  | true =>
    by_cases hex : env.ffmpegExit ≠ 0
    · rw [groq_preprocess_fail env hex]
      simp [hv]
    · have hex0 : env.ffmpegExit = 0 := by omega
      rw [groq_preprocess_exit0 env hex0]
      simp [hv, groq_get_file_size_mb]

/-- An environment whose upload has an unsupported extension. -/
def envBadFormat : ConvEnv :=
  { filename := "notes.txt", tmp := "T", ffmpegExit := 0, ffmpegCreatesOutput := true,
    ffmpegStderr := "", backendOk := true, backendMsg := "", preprocSeconds := 0,
    uploadTooLarge := false }

/-- C4 (counterexample): in the whisper variant an upload that fails format
validation is answered with HTTP 500, not the claimed client error 400 — its
endpoint maps every exception, including the validation `ValueError`, to a
server error. -/
theorem whisper_validation_returns_500 :
    (whisper_transcribe_endpoint envBadFormat ReqState.init).1.status = 500 ∧
    (whisper_transcribe_endpoint envBadFormat ReqState.init).1.status ≠ 400 ∧
    (whisper_transcribe_endpoint envBadFormat ReqState.init).1.detail =
      "Transcription failed: Invalid audio format. Supported formats: mp3, wav, flac, m4a, ogg, aac, webm" := by
  refine ⟨by decide, by decide, by decide⟩

/-- C4 (amended): validation failures are answered with HTTP 400 and a
message naming supported formats by the faster-whisper and groq-api
endpoints, but with HTTP 500 by the whisper endpoint; conversion failures
(and, in the faster-whisper variant, any stage failure) are answered with
HTTP 500; and no variant invokes the converter or the backend more than once
per request. -/
theorem endpoint_status_mapping :
    (∀ env : FwEnv, env.filename ≠ "" → is_valid_audio_format env.filename = false →
      fw_transcribe_endpoint env =
        ⟨400, "Invalid audio format. Supported formats: mp3, wav, flac, m4a, ogg, aac, webm"⟩) ∧
    (∀ (env : FwEnv) (e : PyExc), env.filename ≠ "" →
      is_valid_audio_format env.filename = true → env.stageResult = .error e →
      fw_transcribe_endpoint env = ⟨500, "Transcription failed: " ++ e.message⟩) ∧
    (∀ env : ConvEnv, is_valid_audio_format env.filename = false →
      (groq_transcribe_endpoint env ReqState.init).1 =
        ⟨400, "Invalid file format. Supported formats: mp3, wav, m4a, flac, ogg, aac"⟩) ∧
    (∀ env : ConvEnv, is_valid_audio_format env.filename = true → env.ffmpegExit ≠ 0 →
      (groq_transcribe_endpoint env ReqState.init).1.status = 500) ∧
    (∀ env : ConvEnv, env.uploadTooLarge = false →
      is_valid_audio_format env.filename = false →
      (whisper_transcribe_endpoint env ReqState.init).1.status = 500) ∧
    (∀ env : ConvEnv, env.uploadTooLarge = false →
      is_valid_audio_format env.filename = true → env.ffmpegExit ≠ 0 →
      (whisper_transcribe_endpoint env ReqState.init).1.status = 500) ∧
    (∀ env : ConvEnv,
      (whisper_transcribe_endpoint env ReqState.init).2.ffmpegRuns ≤ 1 ∧
      (whisper_transcribe_endpoint env ReqState.init).2.backendRuns ≤ 1) ∧
    (∀ env : ConvEnv,
      (groq_transcribe_endpoint env ReqState.init).2.ffmpegRuns ≤ 1 ∧
      (groq_transcribe_endpoint env ReqState.init).2.backendRuns ≤ 1) :=
  ⟨fw_endpoint_invalid_400,
   fun env e hne hv hs => fw_endpoint_stage_error_500 env e hne hv hs,
   fun env hv => congrArg Prod.fst (groq_endpoint_invalid_400 env hv),
   groq_endpoint_preproc_fail_500,
   fun env hU hv => congrArg HttpResult.status (whisper_endpoint_invalid_500 env hU hv),
   whisper_endpoint_preproc_fail_500,
   whisper_endpoint_runs_le_one,
   groq_endpoint_runs_le_one⟩

/-- C4 (witness): the amended theorem applied to concrete environments — a
`notes.txt` upload to the faster-whisper endpoint yields 400 naming the
formats, and to the groq endpoint yields 400. -/
theorem endpoint_status_mapping_witness :
    fw_transcribe_endpoint ⟨"notes.txt", .ok ()⟩ =
      ⟨400, "Invalid audio format. Supported formats: mp3, wav, flac, m4a, ogg, aac, webm"⟩ ∧
    (groq_transcribe_endpoint envBadFormat ReqState.init).1 =
      ⟨400, "Invalid file format. Supported formats: mp3, wav, m4a, flac, ogg, aac"⟩ :=
  ⟨endpoint_status_mapping.1 ⟨"notes.txt", .ok ()⟩ (by decide) (by decide),
   endpoint_status_mapping.2.2.1 envBadFormat (by decide)⟩

/-! ## Claim C3: metrics arithmetic -/

theorem pyRound_intCast (n : ℤ) : pyRound ((n : ℚ)) = n := by
  show (if ((n : ℚ) - (⌊(n : ℚ)⌋ : ℚ) < 1/2) then ⌊(n : ℚ)⌋
    else if (1/2 < (n : ℚ) - (⌊(n : ℚ)⌋ : ℚ)) then ⌊(n : ℚ)⌋ + 1
    else if ⌊(n : ℚ)⌋ % 2 = 0 then ⌊(n : ℚ)⌋ else ⌊(n : ℚ)⌋ + 1) = n
  rw [Int.floor_intCast, sub_self, if_pos (by norm_num : (0 : ℚ) < 1/2)]

/-- A concrete successful whisper request: the model took 2 s to load at
service start, validation and audio preprocessing took 1 s each, and the
request's wall clock was 3 s. -/
def whisperBugMetrics : WhisperMetrics :=
  { model_load := 2, validation := 1, audio_preprocessing := 1, audio_loading := 0,
    feature_extraction := 0, model_inference := 0, decoding := 0, postprocessing := 0,
    total := 3 }

/-- C3 (code bug): at a well-formed successful request (all stage durations
non-negative and summing to at most the total wall clock), the whisper
variant reports `overhead_ms = -1000`: its formula subtracts the
service-lifetime `model_load` from the request's total even though loading
happened before the request, exactly the measurement bug the spec flags.
The claim that overhead is never reported negative is right about intent and
violated by this code. -/
theorem whisper_overhead_reported_negative :
    WhisperMetricsWF whisperBugMetrics ∧
    (whisper_simplified_response "hello world" whisperBugMetrics).overhead_ms = -1000 ∧
    (whisper_simplified_response "hello world" whisperBugMetrics).overhead_ms < 0 := by
  have hv : whisper_overhead whisperBugMetrics * 1000 = ((-1000 : ℤ) : ℚ) := by
    norm_num [whisper_overhead, whisper_measured_time, whisperCleanupAtBuild,
      whisperBugMetrics]
  refine ⟨?_, ?_, ?_⟩
  · refine ⟨?_, ?_, ?_, ?_, ?_, ?_, ?_, ?_, ?_, ?_⟩ <;> norm_num [whisperBugMetrics]
  · show pyRound (whisper_overhead whisperBugMetrics * 1000) = -1000
    rw [hv, pyRound_intCast]
  · show pyRound (whisper_overhead whisperBugMetrics * 1000) < 0
    rw [hv, pyRound_intCast]
    norm_num

/-! ## Claim C8: response payload shape -/

/-- C8 (counterexample): the groq-api variant's response payload has no
`language` key at all (and no millisecond timing keys at the top level), so
the claim that every successful response contains those fields with a
default language fails for that variant. -/
theorem groq_response_lacks_language :
    "language" ∉ groq_transcribe_result_keys ∧
    "total_ms" ∉ groq_transcribe_result_keys ∧
    "preprocessing_ms" ∉ groq_transcribe_result_keys ∧
    "model_inference_ms" ∉ groq_transcribe_result_keys ∧
    "text" ∈ groq_transcribe_result_keys := by
  refine ⟨by decide, by decide, by decide, by decide, by decide⟩

/-- C8 (amended): in the whisper and faster-whisper variants every
successful response carries the transcribed text, the fixed default language
"en" (those backends never populate a detected language), and the
total/preprocessing/inference timings in milliseconds; the groq-api response
instead carries text, the elapsed seconds and the model name, with no
language field. -/
theorem response_payload_shape :
    (∀ (t : String) (m : WhisperMetrics),
      (whisper_simplified_response t m).language = "en" ∧
      (whisper_simplified_response t m).text = t) ∧
    (∀ (t : String) (m : FWMetrics),
      (fw_simplified_response t m).language = "en" ∧
      (fw_simplified_response t m).text = t) ∧
    (∀ (t : String) (q : ℚ) (mdl : String),
      (groq_format_response t q mdl).text = t ∧
      (groq_format_response t q mdl).processing_time = q) ∧
    ("language" ∈ whisper_response_keys ∧ "total_ms" ∈ whisper_response_keys ∧
      "preprocessing_ms" ∈ whisper_response_keys ∧
      "model_inference_ms" ∈ whisper_response_keys) ∧
    ("language" ∈ fw_response_keys ∧ "total_ms" ∈ fw_response_keys ∧
      "preprocessing_ms" ∈ fw_response_keys ∧
      "model_inference_ms" ∈ fw_response_keys) ∧
    "language" ∉ groq_format_response_keys :=
  ⟨fun _ _ => ⟨rfl, rfl⟩, fun _ _ => ⟨rfl, rfl⟩, fun _ _ _ => ⟨rfl, rfl⟩,
   by decide, by decide, by decide⟩

/-! ## Claim C9: where the blocking calls run -/

/-- C9 (counterexample): it is not the case that both long-running calls run
on a separate worker: in the whisper and groq variants the wait on the
external conversion process executes directly on the event-loop thread. -/
theorem ffmpeg_wait_blocks_scheduler :
    allBlockingOnWorker whisper_request_dispatch = false ∧
    allBlockingOnWorker groq_request_dispatch = false ∧
    (⟨"ffmpeg_wait", .eventLoop, true⟩ : DispatchStep) ∈ whisper_request_dispatch := by
  refine ⟨by decide, by decide, by decide⟩

/-- C9 (amended): the backend inference / API call is dispatched to a worker
thread in every variant, but the wait on the external conversion process
runs as a blocking call on the shared scheduler thread in the whisper and
groq variants. -/
theorem inference_on_worker_conversion_on_loop :
    ((whisper_request_dispatch ++ groq_request_dispatch ++ fw_request_dispatch).filter
        (fun s => !(s.stage == "ffmpeg_wait"))).all
        (fun s => decide (s.ctx = ExecCtx.workerThread)) = true ∧
    ((whisper_request_dispatch ++ groq_request_dispatch).filter
        (fun s => s.stage == "ffmpeg_wait")).all
        (fun s => s.blockingCall && decide (s.ctx = ExecCtx.eventLoop)) = true ∧
    allBlockingOnWorker fw_request_dispatch = true := by
  refine ⟨by decide, by decide, by decide⟩

/-! ## Claim C10: faster-whisper service construction -/

/-- C10: for every environment (whatever `MODEL_SIZE` and whatever model
path is selected), importing `backend/faster-whisper/main.py` raises
`TypeError`, because the module-level construction passes the keyword
`model_size` which `TranscriptionService.__init__` does not accept; the
service can never start serving requests. -/
theorem fw_startup_raises_type_error (modelSize : String)
    (selectedPath : Option String) :
    exceptIsErr (fw_main_startup modelSize selectedPath) = true ∧
    pyCallRejectsKwargs fw_init_params fw_main_call_kwargs = true :=
  ⟨rfl, rfl⟩
